import Mathlib

/-!
Verification of the background-task coordination engine in
`js/src/vm/HelperThreads.cpp` (the `GlobalHelperThreadState` scheduler).

The scheduler state is embedded shallowly: worklists become Lean lists with
the same push/pop ends as the C++ containers (`Vector::append`/`popBack`/
`popCopy` work on the back; `Fifo::pushBack`/`popCopyFront` and
`LinkedList::insertBack`/`popFirst` work front-to-back), counters become
`Nat`, and the admission predicates, per-kind selectors and the fixed
priority walk are translated function by function.  External effects
(the dispatch callback, actual thread execution) are abstracted: `dispatch`
keeps only its `tasksPending_` bookkeeping, and fallible container appends
take an allocation-success oracle argument.
-/

namespace HelperThreads

/-- Thread-type tags, mirroring the `ThreadType` enumeration used by
`runningTaskCount` and `checkTaskThreadLimit`. -/
inductive ThreadType where
  | ion
  | wasmTier1
  | wasmTier2
  | wasmGenTier2
  | promiseTask
  | parseTask
  | compress
  | gcParallel
  | delazify
  | delazifyFree
  | ionFree
deriving DecidableEq

/-- Wasm compilation modes (`wasm::CompileMode`); only the tiers matter to
the scheduler. -/
inductive CompileMode where
  | tier1
  | tier2
deriving DecidableEq

/-- The scheduler-relevant data of a `jit::IonCompileTask`: the identities
reachable through `task->script()` that `IonCompileTaskMatches` inspects,
and the warm-up/length data used by `IonCompileTaskHasHigherPriority`.
`mainThreadRunningJS` embeds `isMainThreadRunningJS()`. -/
structure IonCompileTask where
  scriptId : Nat
  zoneId : Nat
  runtimeId : Nat
  zoneGcState : Nat
  warmUpCount : Nat
  scriptLength : Nat
  mainThreadRunningJS : Bool
deriving DecidableEq

/-- `CompilationSelector`: the variants matched by `IonCompileTaskMatches`. -/
inductive CompilationSelector where
  | script (scriptId : Nat)
  | zone (zoneId : Nat)
  | zonesInState (runtimeId : Nat) (gcState : Nat)
  | runtime (runtimeId : Nat)
deriving DecidableEq

/-- A schedulable unit handed out by the selectors (`HelperThreadTask`).
Each constructor corresponds to one task class; non-Ion tasks carry only an
identity. -/
inductive HelperThreadTask where
  | gcParallel (id : Nat)
  | ionCompile (task : IonCompileTask)
  | wasmCompile (mode : CompileMode) (id : Nat)
  | wasmTier2Generator (id : Nat)
  | promiseHelper (id : Nat)
  | parse (id : Nat)
  | freeDelazify (id : Nat)
  | delazify (id : Nat)
  | compression (id : Nat)
  | ionFree (id : Nat)
deriving DecidableEq

/-- `HelperThreadTask::threadType()`. -/
def HelperThreadTask.threadType : HelperThreadTask → ThreadType
  | .gcParallel _ => .gcParallel
  | .ionCompile _ => .ion
  | .wasmCompile .tier1 _ => .wasmTier1
  | .wasmCompile .tier2 _ => .wasmTier2
  | .wasmTier2Generator _ => .wasmGenTier2
  | .promiseHelper _ => .promiseTask
  | .parse _ => .parseTask
  | .freeDelazify _ => .delazifyFree
  | .delazify _ => .delazify
  | .compression _ => .compress
  | .ionFree _ => .ionFree

/-- The lock-protected state of `GlobalHelperThreadState`: the thread-count
policy, the running-task registry (`helperTasks_` plus the
`runningTaskCount`/`totalCountRunningTasks` counters), the per-kind
worklists, the Ion finished/lazy-link lists, and the pending-dispatch
counter.  The lazy-link list lives on the `JSRuntime` in the source but is
coordinated by the same cancel path, so it is carried here.  List elements
are ordered front first, so `Vector`-backed lists push and pop at the back
while FIFO lists pop at the front. -/
structure GlobalHelperThreadState where
  cpuCount : Nat
  threadCount : Nat
  gcParallelThreadCount : Nat
  totalCountRunningTasks : Nat
  runningTaskCount : ThreadType → Nat
  helperTasks : List HelperThreadTask
  tasksPending : Nat
  ionWorklist : List IonCompileTask
  ionFinishedList : List IonCompileTask
  ionLazyLinkList : List IonCompileTask
  ionFreeList : List Nat
  wasmWorklistTier1 : List Nat
  wasmWorklistTier2 : List Nat
  wasmTier2GeneratorWorklist : List Nat
  promiseHelperTasks : List Nat
  parseWorklist : List Nat
  freeDelazifyTaskVector : List Nat
  delazifyWorklist : List Nat
  compressionWorklist : List Nat
  gcParallelWorklist : List Nat
  numFinishedOffThreadTasks : Nat

abbrev GState := GlobalHelperThreadState

/-- `ClampDefaultCPUCount`: clamp to 8 cores. -/
def ClampDefaultCPUCount (cpuCount : Nat) : Nat :=
  min cpuCount 8

/-- `ThreadCountForCPUCount`: at least two threads, because a master task
holds a thread while other threads do the work. -/
def ThreadCountForCPUCount (cpuCount : Nat) : Nat :=
  max cpuCount 2

/-- The `GlobalHelperThreadState` constructor computes
`threadCount = ThreadCountForCPUCount(ClampDefaultCPUCount(GetCPUCount()))`;
this is that composition as a function of the probed CPU count. -/
def initialThreadCount (probedCpuCount : Nat) : Nat :=
  ThreadCountForCPUCount (ClampDefaultCPUCount probedCpuCount)

/-- `GlobalHelperThreadState::MaxTier2GeneratorTasks`. -/
def MaxTier2GeneratorTasks : Nat := 1

/-- `maxIonCompilationThreads` (the debug-only OOM-simulation special case
is omitted throughout, as in release builds). -/
def maxIonCompilationThreads (st : GState) : Nat :=
  st.threadCount

/-- `maxWasmCompilationThreads`. -/
def maxWasmCompilationThreads (st : GState) : Nat :=
  min st.cpuCount st.threadCount

/-- `maxWasmTier2GeneratorThreads`. -/
def maxWasmTier2GeneratorThreads : Nat :=
  MaxTier2GeneratorTasks

/-- `maxPromiseHelperThreads`. -/
def maxPromiseHelperThreads (st : GState) : Nat :=
  min st.cpuCount st.threadCount

/-- `maxParseThreads`. -/
def maxParseThreads (st : GState) : Nat :=
  min st.cpuCount st.threadCount

/-- `maxCompressionThreads`: compression is low-priority single-threaded
background work. -/
def maxCompressionThreads : Nat := 1

/-- `maxGCParallelThreads`. -/
def maxGCParallelThreads (st : GState) : Nat :=
  st.gcParallelThreadCount

/-- `checkTaskThreadLimit`: admission test against a per-kind cap plus the
master-task deadlock rule (a master task must never take the last idle
thread). -/
def checkTaskThreadLimit (st : GState) (threadType : ThreadType)
    (maxThreads : Nat) (isMaster : Bool) : Bool :=
  if isMaster = false ∧ st.threadCount ≤ maxThreads then true
  else if maxThreads ≤ st.runningTaskCount threadType then false
  else
    let idle := st.threadCount - st.totalCountRunningTasks
    if idle = 0 then false
    else if isMaster = true ∧ idle = 1 then false
    else true

/-- The wasm worklist for a mode (`wasmWorklist(lock, mode)`). -/
def wasmWorklist (st : GState) : CompileMode → List Nat
  | .tier1 => st.wasmWorklistTier1
  | .tier2 => st.wasmWorklistTier2

/-- Replace the wasm worklist for a mode. -/
def setWasmWorklist (st : GState) (mode : CompileMode) (l : List Nat) :
    GState :=
  match mode with
  | .tier1 => { st with wasmWorklistTier1 := l }
  | .tier2 => { st with wasmWorklistTier2 := l }

/-- `canStartWasmCompile`: when the tier-2 generator queue is backlogged
(length over 20) tier 2 gets the full wasm budget and tier 1 is starved to
zero; otherwise tier 2 is throttled to a third of the logical cores.  The
source computes `size_t(ceil(cpuCount / 3.0))`; for every count whose
double quotient is exact enough (all realistic counts) that equals
`(cpuCount + 2) / 3` in integer arithmetic, which is used here. -/
def canStartWasmCompile (st : GState) (mode : CompileMode) : Bool :=
  if (wasmWorklist st mode).isEmpty then false
  else
    let tier2oversubscribed : Bool :=
      decide (20 < st.wasmTier2GeneratorWorklist.length)
    let physCoresAvailable : Nat := (st.cpuCount + 2) / 3
    let threads : Nat :=
      match mode with
      | .tier2 =>
        if tier2oversubscribed then maxWasmCompilationThreads st
        else physCoresAvailable
      | .tier1 =>
        if tier2oversubscribed then 0 else maxWasmCompilationThreads st
    let ty : ThreadType :=
      match mode with
      | .tier2 => .wasmTier2
      | .tier1 => .wasmTier1
    decide (threads ≠ 0) && checkTaskThreadLimit st ty threads false

/-- `canStartWasmTier1CompileTask`. -/
def canStartWasmTier1CompileTask (st : GState) : Bool :=
  canStartWasmCompile st .tier1

/-- `canStartWasmTier2CompileTask`. -/
def canStartWasmTier2CompileTask (st : GState) : Bool :=
  canStartWasmCompile st .tier2

/-- `canStartWasmTier2GeneratorTask` (a master task). -/
def canStartWasmTier2GeneratorTask (st : GState) : Bool :=
  !st.wasmTier2GeneratorWorklist.isEmpty &&
    checkTaskThreadLimit st .wasmGenTier2 maxWasmTier2GeneratorThreads true

/-- `canStartPromiseHelperTask` (a master task: promise helper tasks can be
wasm compilations that block on further wasm compilation). -/
def canStartPromiseHelperTask (st : GState) : Bool :=
  !st.promiseHelperTasks.isEmpty &&
    checkTaskThreadLimit st .promiseTask (maxPromiseHelperThreads st) true

/-- `canStartIonCompileTask`. -/
def canStartIonCompileTask (st : GState) : Bool :=
  !st.ionWorklist.isEmpty &&
    checkTaskThreadLimit st .ion (maxIonCompilationThreads st) false

/-- `canStartIonFreeTask`. -/
def canStartIonFreeTask (st : GState) : Bool :=
  !st.ionFreeList.isEmpty

/-- `canStartParseTask` (a master task: a parse task may compile asm.js and
then use wasm compilation threads). -/
def canStartParseTask (st : GState) : Bool :=
  !st.parseWorklist.isEmpty &&
    checkTaskThreadLimit st .parseTask (maxParseThreads st) true

/-- `canStartFreeDelazifyTask` (a master task). -/
def canStartFreeDelazifyTask (st : GState) : Bool :=
  !st.freeDelazifyTaskVector.isEmpty &&
    checkTaskThreadLimit st .delazifyFree (maxParseThreads st) true

/-- `canStartDelazifyTask` (a master task). -/
def canStartDelazifyTask (st : GState) : Bool :=
  !st.delazifyWorklist.isEmpty &&
    checkTaskThreadLimit st .delazify (maxParseThreads st) true

/-- `canStartCompressionTask`. -/
def canStartCompressionTask (st : GState) : Bool :=
  !st.compressionWorklist.isEmpty &&
    checkTaskThreadLimit st .compress maxCompressionThreads false

/-- `canStartGCParallelTask`. -/
def canStartGCParallelTask (st : GState) : Bool :=
  !st.gcParallelWorklist.isEmpty &&
    checkTaskThreadLimit st .gcParallel (maxGCParallelThreads st) false

/-- `canStartTasks`: disjunction over every kind, used by `dispatch`. -/
def canStartTasks (st : GState) : Bool :=
  canStartGCParallelTask st || canStartIonCompileTask st ||
    canStartWasmTier1CompileTask st || canStartPromiseHelperTask st ||
    canStartParseTask st || canStartFreeDelazifyTask st ||
    canStartDelazifyTask st || canStartCompressionTask st ||
    canStartIonFreeTask st || canStartWasmTier2CompileTask st ||
    canStartWasmTier2GeneratorTask st

/-- `dispatch`: bump the pending-dispatch counter (capped at the thread
count) when runnable work exists; the external callback itself is outside
the coordination state. -/
def dispatch (st : GState) : GState :=
  if canStartTasks st = true ∧ st.tasksPending < st.threadCount then
    { st with tasksPending := st.tasksPending + 1 }
  else st

/-- `submitTask(wasm::CompileTask*, mode)`: `Fifo::pushBack` appends at the
back; `ok` is the allocation-success oracle for the fallible push. -/
def submitWasmTask (ok : Bool) (mode : CompileMode) (id : Nat)
    (st : GState) : Bool × GState :=
  if ok then
    (true, dispatch (setWasmWorklist st mode (wasmWorklist st mode ++ [id])))
  else (false, st)

/-- `submitTask(wasm::UniqueTier2GeneratorTask)`: `Vector::append`. -/
def submitWasmTier2GeneratorTask (ok : Bool) (id : Nat) (st : GState) :
    Bool × GState :=
  if ok then
    (true, dispatch { st with
      wasmTier2GeneratorWorklist := st.wasmTier2GeneratorWorklist ++ [id] })
  else (false, st)

/-- `submitTask(jit::IonCompileTask*)`: `Vector::append` (the arena
read-only toggle on success is memory state outside this embedding). -/
def submitIonTask (ok : Bool) (task : IonCompileTask) (st : GState) :
    Bool × GState :=
  if ok then
    (true, dispatch { st with ionWorklist := st.ionWorklist ++ [task] })
  else (false, st)

/-- `submitTask(UniquePtr<jit::IonFreeTask>)`: `Vector::append`. -/
def submitIonFreeTask (ok : Bool) (id : Nat) (st : GState) :
    Bool × GState :=
  if ok then
    (true, dispatch { st with ionFreeList := st.ionFreeList ++ [id] })
  else (false, st)

/-- `submitTask(JSRuntime*, UniquePtr<ParseTask>)`: `Vector::append`. -/
def submitParseTask (ok : Bool) (id : Nat) (st : GState) : Bool × GState :=
  if ok then
    (true, dispatch { st with parseWorklist := st.parseWorklist ++ [id] })
  else (false, st)

/-- `submitTask(DelazifyTask*)`: `LinkedList::insertBack`, infallible. -/
def submitDelazifyTask (id : Nat) (st : GState) : GState :=
  dispatch { st with delazifyWorklist := st.delazifyWorklist ++ [id] }

/-- `submitTask(UniquePtr<FreeDelazifyTask>)`: `Vector::append`. -/
def submitFreeDelazifyTask (ok : Bool) (id : Nat) (st : GState) :
    Bool × GState :=
  if ok then
    (true, dispatch { st with
      freeDelazifyTaskVector := st.freeDelazifyTaskVector ++ [id] })
  else (false, st)

/-- `submitTask(UniquePtr<SourceCompressionTask>)`: `Vector::append`. -/
def submitCompressionTask (ok : Bool) (id : Nat) (st : GState) :
    Bool × GState :=
  if ok then
    (true, dispatch { st with
      compressionWorklist := st.compressionWorklist ++ [id] })
  else (false, st)

/-- `submitTask(PromiseHelperTask*)`: `Vector::append`. -/
def submitPromiseHelperTask (ok : Bool) (id : Nat) (st : GState) :
    Bool × GState :=
  if ok then
    (true, dispatch { st with
      promiseHelperTasks := st.promiseHelperTasks ++ [id] })
  else (false, st)

/-- `submitTask(GCParallelTask*)`: `LinkedList::insertBack`, always
succeeds (returns true unconditionally in the source). -/
def submitGCParallelTask (id : Nat) (st : GState) : Bool × GState :=
  (true, dispatch { st with
    gcParallelWorklist := st.gcParallelWorklist ++ [id] })

/-- `IonCompileTaskHasHigherPriority`: higher warm-up count normalised by
script length wins. -/
def IonCompileTaskHasHigherPriority (first second : IonCompileTask) :
    Bool :=
  decide (second.warmUpCount / second.scriptLength <
    first.warmUpCount / first.scriptLength)

/-- One iteration of the index-selection loop in
`highestPriorityPendingIonCompile`: skip tasks filtered by
`checkExecutionStatus`, take the first eligible index, then any later
eligible task of strictly higher priority. -/
def ionPickStep (checkExecutionStatus : Bool) (l : List IonCompileTask)
    (index i : Nat) : Nat :=
  match l.get? i with
  | none => index
  | some ti =>
    if checkExecutionStatus = true ∧ ti.mainThreadRunningJS = false then
      index
    else if i < index then i
    else
      match l.get? index with
      | some tind => if IonCompileTaskHasHigherPriority ti tind then i
                     else index
      | none => index

/-- The whole index-selection loop, starting from `worklist.length()` as in
the source. -/
def ionPickIndex (checkExecutionStatus : Bool)
    (l : List IonCompileTask) : Nat :=
  (List.range l.length).foldl (ionPickStep checkExecutionStatus l) l.length

/-- `highestPriorityPendingIonCompile`: returns the chosen task, erased
from the worklist in place, or nothing when every entry was filtered. -/
def highestPriorityPendingIonCompile (st : GState)
    (checkExecutionStatus : Bool) : Option (IonCompileTask × GState) :=
  let worklist := st.ionWorklist
  let index := ionPickIndex checkExecutionStatus worklist
  match worklist.get? index with
  | some task => some (task, { st with ionWorklist := worklist.eraseIdx index })
  | none => none

/-- `maybeGetGCParallelTask`: guarded by `canStartGCParallelTask`, pops the
front of the GC-parallel list (FIFO). -/
def maybeGetGCParallelTask (st : GState) :
    Option (HelperThreadTask × GState) :=
  if canStartGCParallelTask st = true then
    match st.gcParallelWorklist with
    | t :: ts => some (.gcParallel t, { st with gcParallelWorklist := ts })
    | [] => none
  else none

/-- `maybeGetIonCompileTask`. -/
def maybeGetIonCompileTask (st : GState) :
    Option (HelperThreadTask × GState) :=
  if canStartIonCompileTask st = true then
    match highestPriorityPendingIonCompile st true with
    | some (t, st') => some (.ionCompile t, st')
    | none => none
  else none

/-- `maybeGetLowPrioIonCompileTask`. -/
def maybeGetLowPrioIonCompileTask (st : GState) :
    Option (HelperThreadTask × GState) :=
  if canStartIonCompileTask st = true then
    match highestPriorityPendingIonCompile st false with
    | some (t, st') => some (.ionCompile t, st')
    | none => none
  else none

/-- `maybeGetWasmCompile`: guarded by `canStartWasmCompile`, pops the front
of the per-tier FIFO (`popCopyFront`). -/
def maybeGetWasmCompile (st : GState) (mode : CompileMode) :
    Option (HelperThreadTask × GState) :=
  if canStartWasmCompile st mode = true then
    match wasmWorklist st mode with
    | t :: ts => some (.wasmCompile mode t, setWasmWorklist st mode ts)
    | [] => none
  else none

/-- `maybeGetWasmTier1CompileTask`. -/
def maybeGetWasmTier1CompileTask (st : GState) :
    Option (HelperThreadTask × GState) :=
  maybeGetWasmCompile st .tier1

/-- `maybeGetWasmTier2CompileTask`. -/
def maybeGetWasmTier2CompileTask (st : GState) :
    Option (HelperThreadTask × GState) :=
  maybeGetWasmCompile st .tier2

/-- `maybeGetWasmTier2GeneratorTask`: guarded by its `canStart`, pops the
back of the vector (`popCopy`). -/
def maybeGetWasmTier2GeneratorTask (st : GState) :
    Option (HelperThreadTask × GState) :=
  if canStartWasmTier2GeneratorTask st = true then
    match st.wasmTier2GeneratorWorklist.getLast? with
    | some t => some (.wasmTier2Generator t,
        { st with
          wasmTier2GeneratorWorklist := st.wasmTier2GeneratorWorklist.dropLast })
    | none => none
  else none

/-- `maybeGetPromiseHelperTask`: guarded by its `canStart`, pops the back
(`popCopy`). -/
def maybeGetPromiseHelperTask (st : GState) :
    Option (HelperThreadTask × GState) :=
  if canStartPromiseHelperTask st = true then
    match st.promiseHelperTasks.getLast? with
    | some t => some (.promiseHelper t,
        { st with promiseHelperTasks := st.promiseHelperTasks.dropLast })
    | none => none
  else none

/-- `maybeGetParseTask`: guarded by `canStartParseTask`, pops the back
(LIFO). -/
def maybeGetParseTask (st : GState) :
    Option (HelperThreadTask × GState) :=
  if canStartParseTask st = true then
    match st.parseWorklist.getLast? with
    | some t => some (.parse t,
        { st with parseWorklist := st.parseWorklist.dropLast })
    | none => none
  else none

/-- `maybeGetFreeDelazifyTask`: pops the back of the vector when it is
non-empty; the source does NOT consult `canStartFreeDelazifyTask` here. -/
def maybeGetFreeDelazifyTask (st : GState) :
    Option (HelperThreadTask × GState) :=
  match st.freeDelazifyTaskVector.getLast? with
  | some t => some (.freeDelazify t,
      { st with freeDelazifyTaskVector := st.freeDelazifyTaskVector.dropLast })
  | none => none

/-- `maybeGetDelazifyTask`: pops the front of the linked list (FIFO) when
it is non-empty; the source does NOT consult `canStartDelazifyTask` here
(the comment explains delazification deliberately spans all cores). -/
def maybeGetDelazifyTask (st : GState) :
    Option (HelperThreadTask × GState) :=
  match st.delazifyWorklist with
  | t :: ts => some (.delazify t, { st with delazifyWorklist := ts })
  | [] => none

/-- `maybeGetCompressionTask`: guarded by its `canStart`, pops the back
(LIFO). -/
def maybeGetCompressionTask (st : GState) :
    Option (HelperThreadTask × GState) :=
  if canStartCompressionTask st = true then
    match st.compressionWorklist.getLast? with
    | some t => some (.compression t,
        { st with compressionWorklist := st.compressionWorklist.dropLast })
    | none => none
  else none

/-- `maybeGetIonFreeTask`: guarded by `canStartIonFreeTask` (which only
checks non-emptiness), pops the back (LIFO). -/
def maybeGetIonFreeTask (st : GState) :
    Option (HelperThreadTask × GState) :=
  if canStartIonFreeTask st = true then
    match st.ionFreeList.getLast? with
    | some t => some (.ionFree t,
        { st with ionFreeList := st.ionFreeList.dropLast })
    | none => none
  else none

/-- First selector that yields a task, walking the list in order. -/
def firstSome (st : GState) :
    List (GState → Option (HelperThreadTask × GState)) →
    Option (HelperThreadTask × GState)
  | [] => none
  | sel :: rest =>
    match sel st with
    | some r => some r
    | none => firstSome st rest

/-- `GlobalHelperThreadState::selectors`: the fixed priority order, highest
first, exactly as listed in the source array. -/
def selectors : List (GState → Option (HelperThreadTask × GState)) :=
  [maybeGetGCParallelTask,
   maybeGetIonCompileTask,
   maybeGetWasmTier1CompileTask,
   maybeGetPromiseHelperTask,
   maybeGetParseTask,
   maybeGetFreeDelazifyTask,
   maybeGetDelazifyTask,
   maybeGetCompressionTask,
   maybeGetLowPrioIonCompileTask,
   maybeGetIonFreeTask,
   maybeGetWasmTier2CompileTask,
   maybeGetWasmTier2GeneratorTask]

/-- `findHighestPriorityTask`: walk the selector array and return the first
hit (the popped task together with the updated state). -/
def findHighestPriorityTask (st : GState) :
    Option (HelperThreadTask × GState) :=
  firstSome st selectors

/-- The registration half of `runTaskLocked` together with the
`tasksPending_--` at the head of `runOneTask`: with the lock held, the
selected task is placed in the running registry (`infallibleEmplaceBack`)
and `runningTaskCount[threadType]` and `totalCountRunningTasks` are
incremented before its body runs. -/
def startRunning (t : HelperThreadTask) (st : GState) : GState :=
  { st with
    tasksPending := st.tasksPending - 1,
    helperTasks := st.helperTasks ++ [t],
    runningTaskCount := fun ty =>
      if ty = t.threadType then st.runningTaskCount ty + 1
      else st.runningTaskCount ty,
    totalCountRunningTasks := st.totalCountRunningTasks + 1 }

/-- `helperTasks_.eraseIfEqual(task)`: remove the registry entry for the
given task (task pointers are unique, so the first hit is the entry). -/
def eraseTaskEntry (t : HelperThreadTask) :
    List HelperThreadTask → List HelperThreadTask
  | [] => []
  | a :: as => if a = t then as else a :: eraseTaskEntry t as

/-- The retirement half of `runTaskLocked` followed by the
`dispatch(FinishedTask)` of `runOneTask`: with the lock re-held, the task
is erased from the registry and both counters are decremented. -/
def finishRunning (t : HelperThreadTask) (st : GState) : GState :=
  dispatch { st with
    helperTasks := eraseTaskEntry t st.helperTasks,
    runningTaskCount := fun ty =>
      if ty = t.threadType then st.runningTaskCount ty - 1
      else st.runningTaskCount ty,
    totalCountRunningTasks := st.totalCountRunningTasks - 1 }

/-- One lock-held step of the coordination engine.  `startTask` and
`finishTask` are the two registry-touching brackets of `runOneTask`;
`mutateLists` over-approximates every other lock-held operation (all the
submit entry points, the cancel/drain loops and the task bodies' own
re-submissions), none of which touches the running registry, the running
counters, or the fixed thread count. -/
inductive Step : GState → GState → Prop
  | startTask (st : GState) (t : HelperThreadTask) (st' : GState)
      (h : findHighestPriorityTask st = some (t, st')) :
      Step st (startRunning t st')
  | finishTask (st : GState) (t : HelperThreadTask)
      (h : t ∈ st.helperTasks) :
      Step st (finishRunning t st)
  | mutateLists (st st' : GState)
      (hreg : st'.helperTasks = st.helperTasks)
      (hcnt : st'.runningTaskCount = st.runningTaskCount)
      (htot : st'.totalCountRunningTasks = st.totalCountRunningTasks)
      (hthreads : st'.threadCount = st.threadCount) :
      Step st st'

/-- States reachable from a given state by lock-held steps. -/
def Reachable (st0 st : GState) : Prop :=
  Relation.ReflTransGen Step st0 st

/-- A freshly initialised coordinator: `ensureInitialized` zeroes every
`runningTaskCount` entry, the registry is empty, `totalCountRunningTasks`
starts at zero, and the constructor guarantees at least two worker threads
(`ThreadCountForCPUCount`). -/
def InitState (st : GState) : Prop :=
  st.helperTasks = [] ∧ st.totalCountRunningTasks = 0 ∧
    (∀ ty, st.runningTaskCount ty = 0) ∧ 2 ≤ st.threadCount

/-- `IonCompileTaskMatches`: the pure matching predicate of the
cancellation selector against a task's recorded owner metadata. -/
def IonCompileTaskMatches (selector : CompilationSelector)
    (task : IonCompileTask) : Bool :=
  match selector with
  | .script s => decide (s = task.scriptId)
  | .zone z => decide (z = task.zoneId)
  | .runtime r => decide (r = task.runtimeId)
  | .zonesInState r g =>
      decide (r = task.runtimeId) && decide (g = task.zoneGcState)

/-- The worklist pass of `CancelOffThreadIonCompileLocked`: every matching
pending task is moved to the finished list (`FinishOffThreadIonCompile`)
and removed from the worklist.  Modelled from the spec: the `remove`
helper is declared in `HelperThreadState.h`, outside this excerpt; per the
spec ("remove and discard/finish any not-yet-started matching Task found
in worklists") the loop removes every matching entry, which this
order-preserving sweep realises.  Returns the remaining worklist and the
matching tasks in order. -/
def cancelIonWorklistPass (selector : CompilationSelector) :
    List IonCompileTask → List IonCompileTask × List IonCompileTask
  | [] => ([], [])
  | t :: ts =>
    let (w, f) := cancelIonWorklistPass selector ts
    if IonCompileTaskMatches selector t then (w, t :: f) else (t :: w, f)

/-- Phase 1 of `CancelOffThreadIonCompileLocked` as a state transformer:
matching worklist entries are appended to the finished list (each append
also bumps `numFinishedOffThreadTasks`, as `FinishOffThreadIonCompile`
does) and dropped from the worklist. -/
def cancelIonPhase1 (selector : CompilationSelector) (st : GState) :
    GState :=
  let p := cancelIonWorklistPass selector st.ionWorklist
  { st with
    ionWorklist := p.1,
    ionFinishedList := st.ionFinishedList ++ p.2,
    numFinishedOffThreadTasks := st.numFinishedOffThreadTasks + p.2.length }

/-- Phase 3 of `CancelOffThreadIonCompileLocked`: every matching finished
entry is handed to `jit::FinishOffThreadTask` and removed, decrementing
the finished-task counter.  Modelled from the spec:
`jit::FinishOffThreadTask` lives outside the excerpt; per the spec the
cancel path "reclaims matching entries from finished lists", i.e. they
leave the coordinator's lists. -/
def cancelIonPhase3 (selector : CompilationSelector) (st : GState) :
    GState :=
  { st with
    ionFinishedList :=
      st.ionFinishedList.filter (fun t => !IonCompileTaskMatches selector t),
    numFinishedOffThreadTasks :=
      st.numFinishedOffThreadTasks -
        (st.ionFinishedList.filter
          (fun t => IonCompileTaskMatches selector t)).length }

/-- Phase 4 of `CancelOffThreadIonCompileLocked`: the lazy-link list walk;
matching entries are handed to `jit::FinishOffThreadTask`, which unlinks
them (modelled from the spec, as for phase 3). -/
def cancelIonPhase4 (selector : CompilationSelector) (st : GState) :
    GState :=
  { st with
    ionLazyLinkList :=
      st.ionLazyLinkList.filter (fun t => !IonCompileTaskMatches selector t) }

/-- Running-registry entries that are Ion compilations matching a
selector. -/
def noMatchingIonRunning (selector : CompilationSelector) (st : GState) :
    Prop :=
  ∀ ht ∈ st.helperTasks, ∀ t : IonCompileTask,
    ht = HelperThreadTask.ionCompile t →
      IonCompileTaskMatches selector t = false

/-- A concrete idle coordinator configuration used to instantiate the
theorems: eight CPUs (the default clamp ceiling), eight worker threads,
everything empty and idle. -/
def baseState : GState where
  cpuCount := 8
  threadCount := 8
  gcParallelThreadCount := 8
  totalCountRunningTasks := 0
  runningTaskCount := fun _ => 0
  helperTasks := []
  tasksPending := 0
  ionWorklist := []
  ionFinishedList := []
  ionLazyLinkList := []
  ionFreeList := []
  wasmWorklistTier1 := []
  wasmWorklistTier2 := []
  wasmTier2GeneratorWorklist := []
  promiseHelperTasks := []
  parseWorklist := []
  freeDelazifyTaskVector := []
  delazifyWorklist := []
  compressionWorklist := []
  gcParallelWorklist := []
  numFinishedOffThreadTasks := 0

/-! Field-preservation facts for `dispatch`, which only touches the
pending-dispatch counter. -/

@[simp]
theorem dispatch_helperTasks (st : GState) :
    (dispatch st).helperTasks = st.helperTasks := by
  unfold dispatch; split <;> rfl

@[simp]
theorem dispatch_runningTaskCount (st : GState) :
    (dispatch st).runningTaskCount = st.runningTaskCount := by
  unfold dispatch; split <;> rfl

@[simp]
theorem dispatch_totalCountRunningTasks (st : GState) :
    (dispatch st).totalCountRunningTasks = st.totalCountRunningTasks := by
  unfold dispatch; split <;> rfl

@[simp]
theorem dispatch_threadCount (st : GState) :
    (dispatch st).threadCount = st.threadCount := by
  unfold dispatch; split <;> rfl

@[simp]
theorem dispatch_cpuCount (st : GState) :
    (dispatch st).cpuCount = st.cpuCount := by
  unfold dispatch; split <;> rfl

@[simp]
theorem dispatch_gcParallelThreadCount (st : GState) :
    (dispatch st).gcParallelThreadCount = st.gcParallelThreadCount := by
  unfold dispatch; split <;> rfl

@[simp]
theorem dispatch_parseWorklist (st : GState) :
    (dispatch st).parseWorklist = st.parseWorklist := by
  unfold dispatch; split <;> rfl

@[simp]
theorem dispatch_compressionWorklist (st : GState) :
    (dispatch st).compressionWorklist = st.compressionWorklist := by
  unfold dispatch; split <;> rfl

@[simp]
theorem dispatch_freeDelazifyTaskVector (st : GState) :
    (dispatch st).freeDelazifyTaskVector = st.freeDelazifyTaskVector := by
  unfold dispatch; split <;> rfl

@[simp]
theorem dispatch_delazifyWorklist (st : GState) :
    (dispatch st).delazifyWorklist = st.delazifyWorklist := by
  unfold dispatch; split <;> rfl

@[simp]
theorem dispatch_ionFreeList (st : GState) :
    (dispatch st).ionFreeList = st.ionFreeList := by
  unfold dispatch; split <;> rfl

@[simp]
theorem dispatch_gcParallelWorklist (st : GState) :
    (dispatch st).gcParallelWorklist = st.gcParallelWorklist := by
  unfold dispatch; split <;> rfl

@[simp]
theorem dispatch_ionWorklist (st : GState) :
    (dispatch st).ionWorklist = st.ionWorklist := by
  unfold dispatch; split <;> rfl

@[simp]
theorem dispatch_wasmWorklistTier1 (st : GState) :
    (dispatch st).wasmWorklistTier1 = st.wasmWorklistTier1 := by
  unfold dispatch; split <;> rfl

@[simp]
theorem dispatch_wasmWorklistTier2 (st : GState) :
    (dispatch st).wasmWorklistTier2 = st.wasmWorklistTier2 := by
  unfold dispatch; split <;> rfl

@[simp]
theorem dispatch_wasmTier2GeneratorWorklist (st : GState) :
    (dispatch st).wasmTier2GeneratorWorklist =
      st.wasmTier2GeneratorWorklist := by
  unfold dispatch; split <;> rfl

@[simp]
theorem dispatch_promiseHelperTasks (st : GState) :
    (dispatch st).promiseHelperTasks = st.promiseHelperTasks := by
  unfold dispatch; split <;> rfl

@[simp]
theorem dispatch_ionFinishedList (st : GState) :
    (dispatch st).ionFinishedList = st.ionFinishedList := by
  unfold dispatch; split <;> rfl

@[simp]
theorem dispatch_ionLazyLinkList (st : GState) :
    (dispatch st).ionLazyLinkList = st.ionLazyLinkList := by
  unfold dispatch; split <;> rfl

/-- With the master flag set, `checkTaskThreadLimit` rejects whenever at
most one worker thread is idle. -/
theorem checkTaskThreadLimit_master_idle (st : GState) (ty : ThreadType)
    (m : Nat) (h : st.threadCount - st.totalCountRunningTasks ≤ 1) :
    checkTaskThreadLimit st ty m true = false := by
  unfold checkTaskThreadLimit
  rw [if_neg (by rintro ⟨he, _⟩; cases he)]
  by_cases h2 : m ≤ st.runningTaskCount ty
  · rw [if_pos h2]
  · rw [if_neg h2]
    by_cases h3 : st.threadCount - st.totalCountRunningTasks = 0
    · rw [if_pos h3]
    · rw [if_neg h3, if_pos ⟨rfl, by omega⟩]

/-- A passing `checkTaskThreadLimit` bounds the running count by the cap,
provided the early full-capacity shortcut cannot fire (master task, or a
cap below the thread count). -/
theorem checkTaskThreadLimit_running_lt (st : GState) (ty : ThreadType)
    (m : Nat) (isMaster : Bool)
    (hcond : isMaster = true ∨ m < st.threadCount)
    (h : checkTaskThreadLimit st ty m isMaster = true) :
    st.runningTaskCount ty < m := by
  unfold checkTaskThreadLimit at h
  rw [if_neg (by
    rintro ⟨he, hle⟩
    rcases hcond with hc | hc
    · rw [hc] at he; cases he
    · omega)] at h
  by_cases h2 : m ≤ st.runningTaskCount ty
  · rw [if_pos h2] at h; cases h
  · omega

/-- C1.  Master-task deadlock avoidance: for every master-kind admission
predicate (wasm tier-2 generator, promise-helper, parse, delazify,
free-delazify), `canStart` is false whenever at most one worker thread is
idle, i.e. whenever `threadCount - totalCountRunningTasks ≤ 1`; with two
threads and one task already in the running registry this refuses a second
master-kind task. -/
theorem masterTaskDeadlockAvoidance (st : GState)
    (h : st.threadCount - st.totalCountRunningTasks ≤ 1) :
    canStartWasmTier2GeneratorTask st = false ∧
    canStartPromiseHelperTask st = false ∧
    canStartParseTask st = false ∧
    canStartDelazifyTask st = false ∧
    canStartFreeDelazifyTask st = false := by
  refine ⟨?_, ?_, ?_, ?_, ?_⟩ <;>
    simp [canStartWasmTier2GeneratorTask, canStartPromiseHelperTask,
      canStartParseTask, canStartDelazifyTask, canStartFreeDelazifyTask,
      checkTaskThreadLimit_master_idle st _ _ h]

/-- A two-thread coordinator with one (master) task already running. -/
def twoThreadBusyState : GState :=
  { baseState with
    threadCount := 2, cpuCount := 2,
    totalCountRunningTasks := 1,
    helperTasks := [HelperThreadTask.parse 0],
    wasmTier2GeneratorWorklist := [1], promiseHelperTasks := [2],
    parseWorklist := [3], delazifyWorklist := [4],
    freeDelazifyTaskVector := [5] }

/-- Witness for C1: thread count 2 and one running task leaves one idle
thread, so every master-kind admission predicate refuses. -/
theorem masterTaskDeadlockAvoidance_witness :
    canStartWasmTier2GeneratorTask twoThreadBusyState = false ∧
    canStartPromiseHelperTask twoThreadBusyState = false ∧
    canStartParseTask twoThreadBusyState = false ∧
    canStartDelazifyTask twoThreadBusyState = false ∧
    canStartFreeDelazifyTask twoThreadBusyState = false :=
  masterTaskDeadlockAvoidance twoThreadBusyState (by decide)

/-- C8.  Thread-count clamp: the constructor's composition of
`ClampDefaultCPUCount` and `ThreadCountForCPUCount` maps every probed CPU
count c to `max (min c 8) 2`; above the ceiling it yields exactly 8, below
the minimum exactly 2. -/
theorem threadCountClamp (c : Nat) :
    (8 < c → initialThreadCount c = 8) ∧
    (c < 2 → initialThreadCount c = 2) ∧
    initialThreadCount c = max (min c 8) 2 := by
  refine ⟨?_, ?_, rfl⟩ <;>
    · intro h
      simp only [initialThreadCount, ThreadCountForCPUCount,
        ClampDefaultCPUCount]
      omega

/-- Witness for C8 at probed counts 20 and 1. -/
theorem threadCountClamp_witness :
    initialThreadCount 20 = 8 ∧ initialThreadCount 1 = 2 :=
  ⟨(threadCountClamp 20).1 (by decide), (threadCountClamp 1).2.1 (by decide)⟩

/-- C9.  Submission atomicity: every fallible submit entry point returns
false exactly when the worklist append fails to allocate, and in that case
the whole coordinator state is left unchanged (so the caller keeps
ownership of the task); the linked-list-backed GC-parallel submit cannot
fail. -/
theorem submitAtomicity (st : GState) (ok : Bool) (mode : CompileMode)
    (task : IonCompileTask) (id : Nat) :
    ((submitWasmTask ok mode id st).1 = false ↔
      ok = false ∧ (submitWasmTask ok mode id st).2 = st) ∧
    ((submitWasmTier2GeneratorTask ok id st).1 = false ↔
      ok = false ∧ (submitWasmTier2GeneratorTask ok id st).2 = st) ∧
    ((submitIonTask ok task st).1 = false ↔
      ok = false ∧ (submitIonTask ok task st).2 = st) ∧
    ((submitIonFreeTask ok id st).1 = false ↔
      ok = false ∧ (submitIonFreeTask ok id st).2 = st) ∧
    ((submitParseTask ok id st).1 = false ↔
      ok = false ∧ (submitParseTask ok id st).2 = st) ∧
    ((submitFreeDelazifyTask ok id st).1 = false ↔
      ok = false ∧ (submitFreeDelazifyTask ok id st).2 = st) ∧
    ((submitCompressionTask ok id st).1 = false ↔
      ok = false ∧ (submitCompressionTask ok id st).2 = st) ∧
    ((submitPromiseHelperTask ok id st).1 = false ↔
      ok = false ∧ (submitPromiseHelperTask ok id st).2 = st) ∧
    (submitGCParallelTask id st).1 = true := by
  cases ok <;>
    simp [submitWasmTask, submitWasmTier2GeneratorTask, submitIonTask,
      submitIonFreeTask, submitParseTask, submitFreeDelazifyTask,
      submitCompressionTask, submitPromiseHelperTask, submitGCParallelTask]

/-- Witness for C9: a failed parse submission at the base state reports
failure and leaves the state untouched. -/
theorem submitAtomicity_witness :
    (submitParseTask false 7 baseState).1 = false ∧
    (submitParseTask false 7 baseState).2 = baseState :=
  ⟨(submitAtomicity baseState false CompileMode.tier1
      ⟨0, 0, 0, 0, 0, 1, true⟩ 7).2.2.2.2.1.mpr ⟨rfl, rfl⟩,
   ((submitAtomicity baseState false CompileMode.tier1
      ⟨0, 0, 0, 0, 0, 1, true⟩ 7).2.2.2.2.1.mp rfl).2⟩

/-- C6.  Wasm tier split policy: when the tier-2 generator backlog exceeds
the fixed depth of 20, tier-1 compilation is refused outright and tier-2
compilation is admitted up to the full wasm budget
(`maxWasmCompilationThreads`); at or below that depth tier-2 is admitted
only up to a third of the logical cores.  The release assertion
`cpuCount > 1` and the at-least-two-threads policy are hypotheses. -/
theorem wasmTierSplit (st : GState)
    (hcpu : 2 ≤ st.cpuCount) (hthreads : 2 ≤ st.threadCount) :
    (20 < st.wasmTier2GeneratorWorklist.length →
      canStartWasmCompile st .tier1 = false ∧
      canStartWasmCompile st .tier2 =
        (!st.wasmWorklistTier2.isEmpty &&
          checkTaskThreadLimit st .wasmTier2
            (maxWasmCompilationThreads st) false)) ∧
    (st.wasmTier2GeneratorWorklist.length ≤ 20 →
      canStartWasmCompile st .tier2 =
        (!st.wasmWorklistTier2.isEmpty &&
          checkTaskThreadLimit st .wasmTier2 ((st.cpuCount + 2) / 3)
            false)) := by
  have hmax : maxWasmCompilationThreads st ≠ 0 := by
    unfold maxWasmCompilationThreads; omega
  have hphys : (st.cpuCount + 2) / 3 ≠ 0 := by omega
  constructor
  · intro h
    constructor
    · unfold canStartWasmCompile
      simp only [wasmWorklist]
      split
      · rfl
      · simp [h]
    · unfold canStartWasmCompile
      simp only [wasmWorklist]
      cases hE : st.wasmWorklistTier2.isEmpty <;> simp [hE, h, hmax]
  · intro h
    have h2 : ¬(20 < st.wasmTier2GeneratorWorklist.length) := by omega
    unfold canStartWasmCompile
    simp only [wasmWorklist]
    cases hE : st.wasmWorklistTier2.isEmpty <;> simp [hE, h2, hphys]

/-- A coordinator with a severely backlogged tier-2 generator queue. -/
def backloggedState : GState :=
  { baseState with
    wasmTier2GeneratorWorklist := List.replicate 21 0,
    wasmWorklistTier1 := [1], wasmWorklistTier2 := [2] }

/-- A coordinator with a small tier-2 generator queue. -/
def calmState : GState :=
  { baseState with
    wasmTier2GeneratorWorklist := [0], wasmWorklistTier2 := [2] }

/-- Witness for C6: 21 queued generator tasks starve tier 1 and give
tier 2 the full budget; one queued generator task throttles tier 2. -/
theorem wasmTierSplit_witness :
    (canStartWasmCompile backloggedState .tier1 = false ∧
     canStartWasmCompile backloggedState .tier2 =
       (!backloggedState.wasmWorklistTier2.isEmpty &&
         checkTaskThreadLimit backloggedState .wasmTier2
           (maxWasmCompilationThreads backloggedState) false)) ∧
    canStartWasmCompile calmState .tier2 =
      (!calmState.wasmWorklistTier2.isEmpty &&
        checkTaskThreadLimit calmState .wasmTier2
          ((calmState.cpuCount + 2) / 3) false) :=
  ⟨(wasmTierSplit backloggedState (by decide) (by decide)).1 (by decide),
   (wasmTierSplit calmState (by decide) (by decide)).2 (by decide)⟩

/-! Selector/admission relationships: every selector that begins with a
`canStart` guard returns a task only under that guard; the delazify and
free-delazify selectors check only non-emptiness. -/

theorem maybeGetGCParallelTask_isSome (st : GState)
    (h : (maybeGetGCParallelTask st).isSome = true) :
    canStartGCParallelTask st = true := by
  by_cases hc : canStartGCParallelTask st = true
  · exact hc
  · unfold maybeGetGCParallelTask at h
    rw [if_neg hc] at h
    simp at h

theorem maybeGetIonCompileTask_isSome (st : GState)
    (h : (maybeGetIonCompileTask st).isSome = true) :
    canStartIonCompileTask st = true := by
  by_cases hc : canStartIonCompileTask st = true
  · exact hc
  · unfold maybeGetIonCompileTask at h
    rw [if_neg hc] at h
    simp at h

theorem maybeGetLowPrioIonCompileTask_isSome (st : GState)
    (h : (maybeGetLowPrioIonCompileTask st).isSome = true) :
    canStartIonCompileTask st = true := by
  by_cases hc : canStartIonCompileTask st = true
  · exact hc
  · unfold maybeGetLowPrioIonCompileTask at h
    rw [if_neg hc] at h
    simp at h

theorem maybeGetWasmCompile_isSome (st : GState) (mode : CompileMode)
    (h : (maybeGetWasmCompile st mode).isSome = true) :
    canStartWasmCompile st mode = true := by
  by_cases hc : canStartWasmCompile st mode = true
  · exact hc
  · unfold maybeGetWasmCompile at h
    rw [if_neg hc] at h
    simp at h

theorem maybeGetWasmTier2GeneratorTask_isSome (st : GState)
    (h : (maybeGetWasmTier2GeneratorTask st).isSome = true) :
    canStartWasmTier2GeneratorTask st = true := by
  by_cases hc : canStartWasmTier2GeneratorTask st = true
  · exact hc
  · unfold maybeGetWasmTier2GeneratorTask at h
    rw [if_neg hc] at h
    simp at h

theorem maybeGetPromiseHelperTask_isSome (st : GState)
    (h : (maybeGetPromiseHelperTask st).isSome = true) :
    canStartPromiseHelperTask st = true := by
  by_cases hc : canStartPromiseHelperTask st = true
  · exact hc
  · unfold maybeGetPromiseHelperTask at h
    rw [if_neg hc] at h
    simp at h

theorem maybeGetParseTask_isSome (st : GState)
    (h : (maybeGetParseTask st).isSome = true) :
    canStartParseTask st = true := by
  by_cases hc : canStartParseTask st = true
  · exact hc
  · unfold maybeGetParseTask at h
    rw [if_neg hc] at h
    simp at h

theorem maybeGetCompressionTask_isSome (st : GState)
    (h : (maybeGetCompressionTask st).isSome = true) :
    canStartCompressionTask st = true := by
  by_cases hc : canStartCompressionTask st = true
  · exact hc
  · unfold maybeGetCompressionTask at h
    rw [if_neg hc] at h
    simp at h

theorem maybeGetIonFreeTask_isSome (st : GState)
    (h : (maybeGetIonFreeTask st).isSome = true) :
    canStartIonFreeTask st = true := by
  by_cases hc : canStartIonFreeTask st = true
  · exact hc
  · unfold maybeGetIonFreeTask at h
    rw [if_neg hc] at h
    simp at h

/-- The last element of a list exists exactly when the list is
non-empty. -/
theorem getLast?_isSome_eq : ∀ l : List Nat,
    (l.getLast?).isSome = !l.isEmpty
  | [] => rfl
  | [_] => rfl
  | a :: b :: as => by
    rw [List.getLast?_cons_cons, getLast?_isSome_eq (b :: as)]
    rfl

/-- A two-thread coordinator with both threads busy and a queued delazify
task: the delazify admission predicate refuses (no idle thread), yet the
delazify selector still hands out the task. -/
def delazifyBusyState : GState :=
  { baseState with
    delazifyWorklist := [0], freeDelazifyTaskVector := [1],
    threadCount := 2, cpuCount := 2,
    totalCountRunningTasks := 2,
    helperTasks := [HelperThreadTask.parse 2, HelperThreadTask.parse 3] }

/-- Counterexample to C3 as stated: at `delazifyBusyState` the delazify
selector returns a task although `canStartDelazifyTask` is false (the
source's `maybeGetDelazifyTask` and `maybeGetFreeDelazifyTask` do not
consult their admission predicates). -/
theorem selectionHonoursAdmission_cex :
    (maybeGetDelazifyTask delazifyBusyState).isSome = true ∧
    canStartDelazifyTask delazifyBusyState = false ∧
    (maybeGetFreeDelazifyTask delazifyBusyState).isSome = true ∧
    canStartFreeDelazifyTask delazifyBusyState = false :=
  ⟨rfl, by decide, rfl, by decide⟩

/-- C3 (amended).  Selection honours admission predicates for every kind
except delazify and free-delazify: each guarded selector returns a task
only when its `canStart` predicate holds, while the delazify and
free-delazify selectors return a task exactly when their worklist is
non-empty (they do not consult `canStartDelazifyTask` /
`canStartFreeDelazifyTask`). -/
theorem selectionHonoursAdmission (st : GState) :
    ((maybeGetGCParallelTask st).isSome = true →
      canStartGCParallelTask st = true) ∧
    ((maybeGetIonCompileTask st).isSome = true →
      canStartIonCompileTask st = true) ∧
    ((maybeGetWasmTier1CompileTask st).isSome = true →
      canStartWasmTier1CompileTask st = true) ∧
    ((maybeGetPromiseHelperTask st).isSome = true →
      canStartPromiseHelperTask st = true) ∧
    ((maybeGetParseTask st).isSome = true →
      canStartParseTask st = true) ∧
    ((maybeGetCompressionTask st).isSome = true →
      canStartCompressionTask st = true) ∧
    ((maybeGetLowPrioIonCompileTask st).isSome = true →
      canStartIonCompileTask st = true) ∧
    ((maybeGetIonFreeTask st).isSome = true →
      canStartIonFreeTask st = true) ∧
    ((maybeGetWasmTier2CompileTask st).isSome = true →
      canStartWasmTier2CompileTask st = true) ∧
    ((maybeGetWasmTier2GeneratorTask st).isSome = true →
      canStartWasmTier2GeneratorTask st = true) ∧
    (maybeGetFreeDelazifyTask st).isSome =
      !st.freeDelazifyTaskVector.isEmpty ∧
    (maybeGetDelazifyTask st).isSome = !st.delazifyWorklist.isEmpty := by
  refine ⟨maybeGetGCParallelTask_isSome st,
    maybeGetIonCompileTask_isSome st,
    fun h => maybeGetWasmCompile_isSome st .tier1 h,
    maybeGetPromiseHelperTask_isSome st,
    maybeGetParseTask_isSome st,
    maybeGetCompressionTask_isSome st,
    maybeGetLowPrioIonCompileTask_isSome st,
    maybeGetIonFreeTask_isSome st,
    fun h => maybeGetWasmCompile_isSome st .tier2 h,
    maybeGetWasmTier2GeneratorTask_isSome st, ?_, ?_⟩
  · unfold maybeGetFreeDelazifyTask
    rw [← getLast?_isSome_eq]
    cases st.freeDelazifyTaskVector.getLast? <;> rfl
  · unfold maybeGetDelazifyTask
    cases st.delazifyWorklist <;> rfl

/-- A fully loaded idle coordinator: every worklist holds one task and all
eight threads are free. -/
def busyAllState : GState :=
  { baseState with
    gcParallelWorklist := [1],
    ionWorklist := [⟨0, 0, 0, 0, 5, 1, true⟩],
    wasmWorklistTier1 := [2], wasmWorklistTier2 := [3],
    wasmTier2GeneratorWorklist := [4],
    promiseHelperTasks := [5], parseWorklist := [6],
    freeDelazifyTaskVector := [7], delazifyWorklist := [8],
    compressionWorklist := [9], ionFreeList := [10] }

/-- Witness for the amended C3 at a state where every selector has work
and capacity. -/
theorem selectionHonoursAdmission_witness :
    canStartGCParallelTask busyAllState = true ∧
    canStartIonCompileTask busyAllState = true ∧
    canStartWasmTier1CompileTask busyAllState = true ∧
    canStartPromiseHelperTask busyAllState = true ∧
    canStartParseTask busyAllState = true ∧
    canStartCompressionTask busyAllState = true ∧
    canStartIonFreeTask busyAllState = true ∧
    canStartWasmTier2CompileTask busyAllState = true ∧
    canStartWasmTier2GeneratorTask busyAllState = true ∧
    (maybeGetFreeDelazifyTask busyAllState).isSome =
      !busyAllState.freeDelazifyTaskVector.isEmpty ∧
    (maybeGetDelazifyTask busyAllState).isSome =
      !busyAllState.delazifyWorklist.isEmpty := by
  have h := selectionHonoursAdmission busyAllState
  exact ⟨h.1 (by decide), h.2.1 (by decide), h.2.2.1 (by decide),
    h.2.2.2.1 (by decide), h.2.2.2.2.1 (by decide),
    h.2.2.2.2.2.1 (by decide), h.2.2.2.2.2.2.2.1 (by decide),
    h.2.2.2.2.2.2.2.2.1 (by decide), h.2.2.2.2.2.2.2.2.2.1 (by decide),
    h.2.2.2.2.2.2.2.2.2.2.1, h.2.2.2.2.2.2.2.2.2.2.2⟩

/-- C2.  Priority respected under contention: with one GC-parallel task
and one parse task queued and every thread slot free, the selection walk
(whose order is the fixed `selectors` array: GC-parallel first, parse
fifth) returns the GC-parallel task, popped from the front of its
worklist. -/
theorem prioritySelection (st : GState) (g p : Nat)
    (hgc : st.gcParallelWorklist = [g])
    (hparse : st.parseWorklist = [p])
    (hrun : ∀ ty, st.runningTaskCount ty = 0)
    (htot : st.totalCountRunningTasks = 0)
    (hthreads : 1 ≤ st.threadCount)
    (hgcmax : 1 ≤ st.gcParallelThreadCount) :
    findHighestPriorityTask st =
      some (HelperThreadTask.gcParallel g,
        { st with gcParallelWorklist := [] }) := by
  have hcan : canStartGCParallelTask st = true := by
    unfold canStartGCParallelTask maxGCParallelThreads
    rw [hgc]
    simp only [List.isEmpty_cons, Bool.not_false, Bool.true_and]
    unfold checkTaskThreadLimit
    by_cases hge : st.threadCount ≤ st.gcParallelThreadCount
    · rw [if_pos ⟨rfl, hge⟩]
    · rw [if_neg (by rintro ⟨_, hle⟩; omega),
        if_neg (by rw [hrun]; omega),
        if_neg (by omega),
        if_neg (by rintro ⟨he, _⟩; cases he)]
  have hsel : maybeGetGCParallelTask st =
      some (HelperThreadTask.gcParallel g,
        { st with gcParallelWorklist := [] }) := by
    unfold maybeGetGCParallelTask
    rw [if_pos hcan]
    simp only [hgc]
  unfold findHighestPriorityTask selectors
  rw [firstSome, hsel]

/-- The concrete C2 scenario state. -/
def gcVsParseState : GState :=
  { baseState with gcParallelWorklist := [1], parseWorklist := [2] }

/-- Witness for C2 at the concrete two-task scenario. -/
theorem prioritySelection_witness :
    findHighestPriorityTask gcVsParseState =
      some (HelperThreadTask.gcParallel 1,
        { gcVsParseState with gcParallelWorklist := [] }) :=
  prioritySelection gcVsParseState 1 2 rfl rfl (fun _ => rfl) rfl
    (by decide) (by decide)

/-- C5.  FIFO/LIFO fidelity per kind: submitting tasks A then B to an
idle coordinator and popping once through the kind's selector returns B
for the LIFO kinds (parse, compression, free-delazify, JIT-free, all
popped from the back of a vector) and returns A for the FIFO kinds
(delazify and GC-parallel, popped from the front of a linked list). -/
theorem fifoLifoFidelity (A B : Nat) :
    Option.map Prod.fst (maybeGetParseTask
        (submitParseTask true B (submitParseTask true A baseState).2).2) =
      some (HelperThreadTask.parse B) ∧
    Option.map Prod.fst (maybeGetCompressionTask
        (submitCompressionTask true B
          (submitCompressionTask true A baseState).2).2) =
      some (HelperThreadTask.compression B) ∧
    Option.map Prod.fst (maybeGetFreeDelazifyTask
        (submitFreeDelazifyTask true B
          (submitFreeDelazifyTask true A baseState).2).2) =
      some (HelperThreadTask.freeDelazify B) ∧
    Option.map Prod.fst (maybeGetIonFreeTask
        (submitIonFreeTask true B (submitIonFreeTask true A baseState).2).2) =
      some (HelperThreadTask.ionFree B) ∧
    Option.map Prod.fst (maybeGetDelazifyTask
        (submitDelazifyTask B (submitDelazifyTask A baseState))) =
      some (HelperThreadTask.delazify A) ∧
    Option.map Prod.fst (maybeGetGCParallelTask
        (submitGCParallelTask B (submitGCParallelTask A baseState).2).2) =
      some (HelperThreadTask.gcParallel A) :=
  ⟨rfl, rfl, rfl, rfl, rfl, rfl⟩

/-- No matching task survives the worklist pass of the cancel loop. -/
theorem cancelIonWorklistPass_no_match (sel : CompilationSelector)
    (l : List IonCompileTask) :
    ∀ t ∈ (cancelIonWorklistPass sel l).1,
      IonCompileTaskMatches sel t = false := by
  induction l with
  | nil => intro t ht; simp [cancelIonWorklistPass] at ht
  | cons a as ih =>
    intro t ht
    rw [cancelIonWorklistPass] at ht
    rcases hwf : cancelIonWorklistPass sel as with ⟨w, f⟩
    rw [hwf] at ht ih
    have ht2 : t ∈ (if IonCompileTaskMatches sel a = true then (w, a :: f)
        else (a :: w, f)).1 := ht
    by_cases hm : IonCompileTaskMatches sel a = true
    · rw [if_pos hm] at ht2
      exact ih t ht2
    · rw [if_neg hm] at ht2
      have hw : t ∈ a :: w := ht2
      rcases List.mem_cons.mp hw with rfl | ht'
      · exact Bool.eq_false_iff.mpr hm
      · exact ih t ht'

/-- C4.  Cancellation completeness for JIT compilations: run the worklist
pass of `CancelOffThreadIonCompileLocked` on any state; let `st2` be any
state observed when its wait loop exits (the worklist pass's result is
still the Ion worklist and no matching compilation remains in the running
registry — the loop's exit condition); then after the finished-list and
lazy-link passes no task matching the selector remains in the compile
worklist, the running registry, the finished list, or the lazy-link
list. -/
theorem cancellationCompleteness (sel : CompilationSelector)
    (st st2 : GState)
    (hwl : st2.ionWorklist = (cancelIonPhase1 sel st).ionWorklist)
    (hrun : noMatchingIonRunning sel st2) :
    (∀ t ∈ (cancelIonPhase4 sel (cancelIonPhase3 sel st2)).ionWorklist,
      IonCompileTaskMatches sel t = false) ∧
    noMatchingIonRunning sel (cancelIonPhase4 sel (cancelIonPhase3 sel st2)) ∧
    (∀ t ∈ (cancelIonPhase4 sel (cancelIonPhase3 sel st2)).ionFinishedList,
      IonCompileTaskMatches sel t = false) ∧
    (∀ t ∈ (cancelIonPhase4 sel (cancelIonPhase3 sel st2)).ionLazyLinkList,
      IonCompileTaskMatches sel t = false) := by
  refine ⟨?_, ?_, ?_, ?_⟩
  · intro t ht
    have hw : (cancelIonPhase4 sel (cancelIonPhase3 sel st2)).ionWorklist =
        st2.ionWorklist := rfl
    rw [hw, hwl] at ht
    exact cancelIonWorklistPass_no_match sel st.ionWorklist t ht
  · intro ht hht t htask
    exact hrun ht hht t htask
  · intro t ht
    have hf : (cancelIonPhase4 sel (cancelIonPhase3 sel st2)).ionFinishedList =
        st2.ionFinishedList.filter
          (fun x => !IonCompileTaskMatches sel x) := rfl
    rw [hf] at ht
    have := (List.mem_filter.mp ht).2
    simpa using this
  · intro t ht
    have hl : (cancelIonPhase4 sel (cancelIonPhase3 sel st2)).ionLazyLinkList =
        st2.ionLazyLinkList.filter
          (fun x => !IonCompileTaskMatches sel x) := rfl
    rw [hl] at ht
    have := (List.mem_filter.mp ht).2
    simpa using this

/-- Two Ion compilations on one runtime, one on another, plus matching and
non-matching finished and lazy-link entries. -/
def ionCancelState : GState :=
  { baseState with
    ionWorklist := [⟨0, 0, 0, 0, 1, 1, true⟩, ⟨1, 0, 1, 0, 1, 1, true⟩],
    ionFinishedList := [⟨2, 0, 0, 0, 1, 1, true⟩],
    ionLazyLinkList := [⟨3, 0, 0, 0, 1, 1, true⟩, ⟨4, 0, 1, 0, 1, 1, true⟩] }

/-- Witness for C4: cancel everything owned by runtime 0 at a concrete
state whose wait phase ends with an empty running registry. -/
theorem cancellationCompleteness_witness :
    (∀ t ∈ (cancelIonPhase4 (CompilationSelector.runtime 0)
        (cancelIonPhase3 (CompilationSelector.runtime 0)
          (cancelIonPhase1 (CompilationSelector.runtime 0)
            ionCancelState))).ionWorklist,
      IonCompileTaskMatches (CompilationSelector.runtime 0) t = false) ∧
    noMatchingIonRunning (CompilationSelector.runtime 0)
      (cancelIonPhase4 (CompilationSelector.runtime 0)
        (cancelIonPhase3 (CompilationSelector.runtime 0)
          (cancelIonPhase1 (CompilationSelector.runtime 0)
            ionCancelState))) ∧
    (∀ t ∈ (cancelIonPhase4 (CompilationSelector.runtime 0)
        (cancelIonPhase3 (CompilationSelector.runtime 0)
          (cancelIonPhase1 (CompilationSelector.runtime 0)
            ionCancelState))).ionFinishedList,
      IonCompileTaskMatches (CompilationSelector.runtime 0) t = false) ∧
    (∀ t ∈ (cancelIonPhase4 (CompilationSelector.runtime 0)
        (cancelIonPhase3 (CompilationSelector.runtime 0)
          (cancelIonPhase1 (CompilationSelector.runtime 0)
            ionCancelState))).ionLazyLinkList,
      IonCompileTaskMatches (CompilationSelector.runtime 0) t = false) :=
  cancellationCompleteness (CompilationSelector.runtime 0) ionCancelState
    (cancelIonPhase1 (CompilationSelector.runtime 0) ionCancelState) rfl
    (fun ht hht _ _ => absurd hht (List.not_mem_nil ht))

/-- Number of registry entries with a given thread type. -/
def countType (ty : ThreadType) (l : List HelperThreadTask) : Nat :=
  l.countP (fun t => decide (t.threadType = ty))

theorem countType_cons (ty : ThreadType) (a : HelperThreadTask)
    (l : List HelperThreadTask) :
    countType ty (a :: l) =
      countType ty l + (if a.threadType = ty then 1 else 0) := by
  simp [countType, List.countP_cons]

theorem countType_append_single (ty : ThreadType) (t : HelperThreadTask)
    (l : List HelperThreadTask) :
    countType ty (l ++ [t]) =
      countType ty l + (if t.threadType = ty then 1 else 0) := by
  simp [countType, List.countP_append, List.countP_cons]

theorem eraseTaskEntry_length (t : HelperThreadTask) :
    ∀ l : List HelperThreadTask, t ∈ l →
      (eraseTaskEntry t l).length + 1 = l.length := by
  intro l
  induction l with
  | nil => intro h; cases h
  | cons a as ih =>
    intro h
    rw [eraseTaskEntry]
    by_cases he : a = t
    · rw [if_pos he]; rfl
    · rw [if_neg he]
      have hmem : t ∈ as := by
        rcases List.mem_cons.mp h with rfl | h'
        · exact absurd rfl he
        · exact h'
      have ih' := ih hmem
      simp only [List.length_cons]
      omega

theorem countType_eraseTaskEntry (ty : ThreadType) (t : HelperThreadTask) :
    ∀ l : List HelperThreadTask, t ∈ l →
      countType ty l = countType ty (eraseTaskEntry t l) +
        (if t.threadType = ty then 1 else 0) := by
  intro l
  induction l with
  | nil => intro h; cases h
  | cons a as ih =>
    intro h
    rw [eraseTaskEntry]
    by_cases he : a = t
    · rw [if_pos he, countType_cons, he]
    · rw [if_neg he]
      have hmem : t ∈ as := by
        rcases List.mem_cons.mp h with rfl | h'
        · exact absurd rfl he
        · exact h'
      rw [countType_cons, countType_cons, ih hmem]
      omega

/-- A selection step leaves the running registry, the running counters and
the thread count untouched (selectors only pop worklists). -/
def RegFrame (st st' : GState) : Prop :=
  st'.helperTasks = st.helperTasks ∧
  st'.runningTaskCount = st.runningTaskCount ∧
  st'.totalCountRunningTasks = st.totalCountRunningTasks ∧
  st'.threadCount = st.threadCount

theorem maybeGetGCParallelTask_frame (st : GState) (t : HelperThreadTask)
    (st' : GState) (h : maybeGetGCParallelTask st = some (t, st')) :
    RegFrame st st' ∧ t.threadType = ThreadType.gcParallel := by
  unfold maybeGetGCParallelTask at h
  split at h
  · split at h
    · simp only [Option.some.injEq, Prod.mk.injEq] at h
      obtain ⟨rfl, rfl⟩ := h
      exact ⟨⟨rfl, rfl, rfl, rfl⟩, rfl⟩
    · cases h
  · cases h

theorem highestPriorityPendingIonCompile_frame (st : GState) (b : Bool)
    (task : IonCompileTask) (st' : GState)
    (h : highestPriorityPendingIonCompile st b = some (task, st')) :
    RegFrame st st' := by
  simp only [highestPriorityPendingIonCompile] at h
  split at h
  · simp only [Option.some.injEq, Prod.mk.injEq] at h
    obtain ⟨rfl, rfl⟩ := h
    exact ⟨rfl, rfl, rfl, rfl⟩
  · cases h

theorem maybeGetIonCompileTask_frame (st : GState) (t : HelperThreadTask)
    (st' : GState) (h : maybeGetIonCompileTask st = some (t, st')) :
    RegFrame st st' ∧ t.threadType = ThreadType.ion := by
  unfold maybeGetIonCompileTask at h
  split at h
  · split at h
    next t0 s0 heq =>
      simp only [Option.some.injEq, Prod.mk.injEq] at h
      obtain ⟨rfl, rfl⟩ := h
      exact ⟨highestPriorityPendingIonCompile_frame st true t0 s0 heq, rfl⟩
    next heq => cases h
  · cases h

theorem maybeGetLowPrioIonCompileTask_frame (st : GState)
    (t : HelperThreadTask) (st' : GState)
    (h : maybeGetLowPrioIonCompileTask st = some (t, st')) :
    RegFrame st st' ∧ t.threadType = ThreadType.ion := by
  unfold maybeGetLowPrioIonCompileTask at h
  split at h
  · split at h
    next t0 s0 heq =>
      simp only [Option.some.injEq, Prod.mk.injEq] at h
      obtain ⟨rfl, rfl⟩ := h
      exact ⟨highestPriorityPendingIonCompile_frame st false t0 s0 heq, rfl⟩
    next heq => cases h
  · cases h

theorem maybeGetWasmCompile_frame (st : GState) (mode : CompileMode)
    (t : HelperThreadTask) (st' : GState)
    (h : maybeGetWasmCompile st mode = some (t, st')) :
    RegFrame st st' ∧
      (t.threadType = ThreadType.wasmTier1 ∨
        t.threadType = ThreadType.wasmTier2) := by
  unfold maybeGetWasmCompile at h
  split at h
  · split at h
    · simp only [Option.some.injEq, Prod.mk.injEq] at h
      obtain ⟨rfl, rfl⟩ := h
      cases mode
      · exact ⟨⟨rfl, rfl, rfl, rfl⟩, Or.inl rfl⟩
      · exact ⟨⟨rfl, rfl, rfl, rfl⟩, Or.inr rfl⟩
    · cases h
  · cases h

theorem maybeGetWasmTier2GeneratorTask_frame (st : GState)
    (t : HelperThreadTask) (st' : GState)
    (h : maybeGetWasmTier2GeneratorTask st = some (t, st')) :
    RegFrame st st' ∧ t.threadType = ThreadType.wasmGenTier2 := by
  unfold maybeGetWasmTier2GeneratorTask at h
  split at h
  · split at h
    · simp only [Option.some.injEq, Prod.mk.injEq] at h
      obtain ⟨rfl, rfl⟩ := h
      exact ⟨⟨rfl, rfl, rfl, rfl⟩, rfl⟩
    · cases h
  · cases h

theorem maybeGetPromiseHelperTask_frame (st : GState)
    (t : HelperThreadTask) (st' : GState)
    (h : maybeGetPromiseHelperTask st = some (t, st')) :
    RegFrame st st' ∧ t.threadType = ThreadType.promiseTask := by
  unfold maybeGetPromiseHelperTask at h
  split at h
  · split at h
    · simp only [Option.some.injEq, Prod.mk.injEq] at h
      obtain ⟨rfl, rfl⟩ := h
      exact ⟨⟨rfl, rfl, rfl, rfl⟩, rfl⟩
    · cases h
  · cases h

theorem maybeGetParseTask_frame (st : GState) (t : HelperThreadTask)
    (st' : GState) (h : maybeGetParseTask st = some (t, st')) :
    RegFrame st st' ∧ t.threadType = ThreadType.parseTask := by
  unfold maybeGetParseTask at h
  split at h
  · split at h
    · simp only [Option.some.injEq, Prod.mk.injEq] at h
      obtain ⟨rfl, rfl⟩ := h
      exact ⟨⟨rfl, rfl, rfl, rfl⟩, rfl⟩
    · cases h
  · cases h

theorem maybeGetFreeDelazifyTask_frame (st : GState) (t : HelperThreadTask)
    (st' : GState) (h : maybeGetFreeDelazifyTask st = some (t, st')) :
    RegFrame st st' ∧ t.threadType = ThreadType.delazifyFree := by
  unfold maybeGetFreeDelazifyTask at h
  split at h
  · simp only [Option.some.injEq, Prod.mk.injEq] at h
    obtain ⟨rfl, rfl⟩ := h
    exact ⟨⟨rfl, rfl, rfl, rfl⟩, rfl⟩
  · cases h

theorem maybeGetDelazifyTask_frame (st : GState) (t : HelperThreadTask)
    (st' : GState) (h : maybeGetDelazifyTask st = some (t, st')) :
    RegFrame st st' ∧ t.threadType = ThreadType.delazify := by
  unfold maybeGetDelazifyTask at h
  split at h
  · simp only [Option.some.injEq, Prod.mk.injEq] at h
    obtain ⟨rfl, rfl⟩ := h
    exact ⟨⟨rfl, rfl, rfl, rfl⟩, rfl⟩
  · cases h

theorem maybeGetCompressionTask_frame (st : GState) (t : HelperThreadTask)
    (st' : GState) (h : maybeGetCompressionTask st = some (t, st')) :
    RegFrame st st' ∧ t.threadType = ThreadType.compress := by
  unfold maybeGetCompressionTask at h
  split at h
  · split at h
    · simp only [Option.some.injEq, Prod.mk.injEq] at h
      obtain ⟨rfl, rfl⟩ := h
      exact ⟨⟨rfl, rfl, rfl, rfl⟩, rfl⟩
    · cases h
  · cases h

theorem maybeGetIonFreeTask_frame (st : GState) (t : HelperThreadTask)
    (st' : GState) (h : maybeGetIonFreeTask st = some (t, st')) :
    RegFrame st st' ∧ t.threadType = ThreadType.ionFree := by
  unfold maybeGetIonFreeTask at h
  split at h
  · split at h
    · simp only [Option.some.injEq, Prod.mk.injEq] at h
      obtain ⟨rfl, rfl⟩ := h
      exact ⟨⟨rfl, rfl, rfl, rfl⟩, rfl⟩
    · cases h
  · cases h

/-- Every property that holds of each selector's hits holds of the first
hit of the walk. -/
theorem firstSome_spec {P : HelperThreadTask × GState → Prop} (st : GState) :
    ∀ sels : List (GState → Option (HelperThreadTask × GState)),
      (∀ sel ∈ sels, ∀ r, sel st = some r → P r) →
      ∀ r, firstSome st sels = some r → P r := by
  intro sels
  induction sels with
  | nil =>
    intro _ r h
    rw [firstSome] at h
    cases h
  | cons sel rest ih =>
    intro hall r h
    rw [firstSome] at h
    cases hs : sel st with
    | some r2 =>
      rw [hs] at h
      have hr : r2 = r := Option.some.inj h
      exact hr ▸ hall sel (List.mem_cons_self sel rest) r2 hs
    | none =>
      rw [hs] at h
      exact ih (fun s hsm r0 hr0 =>
        hall s (List.mem_cons_of_mem sel hsm) r0 hr0) r h

/-- Every hit of the selection walk leaves the registry and counters
unchanged, and tasks of the two single-slot kinds are handed out only
under their admission predicates. -/
theorem findHighestPriorityTask_spec (st : GState) (t : HelperThreadTask)
    (st' : GState) (h : findHighestPriorityTask st = some (t, st')) :
    RegFrame st st' ∧
    (t.threadType = ThreadType.wasmGenTier2 →
      canStartWasmTier2GeneratorTask st = true) ∧
    (t.threadType = ThreadType.compress →
      canStartCompressionTask st = true) := by
  refine firstSome_spec
    (P := fun r => RegFrame st r.2 ∧
      (r.1.threadType = ThreadType.wasmGenTier2 →
        canStartWasmTier2GeneratorTask st = true) ∧
      (r.1.threadType = ThreadType.compress →
        canStartCompressionTask st = true))
    st selectors ?_ (t, st') h
  intro sel hsel r hr
  obtain ⟨t0, s0⟩ := r
  simp only [selectors, List.mem_cons, List.not_mem_nil, or_false] at hsel
  rcases hsel with rfl | rfl | rfl | rfl | rfl | rfl | rfl | rfl | rfl |
    rfl | rfl | rfl
  · obtain ⟨hf, hk⟩ := maybeGetGCParallelTask_frame st t0 s0 hr
    refine ⟨hf, fun hty => ?_, fun hty => ?_⟩ <;> rw [hk] at hty <;> cases hty
  · obtain ⟨hf, hk⟩ := maybeGetIonCompileTask_frame st t0 s0 hr
    refine ⟨hf, fun hty => ?_, fun hty => ?_⟩ <;> rw [hk] at hty <;> cases hty
  · obtain ⟨hf, hk⟩ := maybeGetWasmCompile_frame st .tier1 t0 s0 hr
    refine ⟨hf, fun hty => ?_, fun hty => ?_⟩ <;> rcases hk with hk | hk <;>
      rw [hk] at hty <;> cases hty
  · obtain ⟨hf, hk⟩ := maybeGetPromiseHelperTask_frame st t0 s0 hr
    refine ⟨hf, fun hty => ?_, fun hty => ?_⟩ <;> rw [hk] at hty <;> cases hty
  · obtain ⟨hf, hk⟩ := maybeGetParseTask_frame st t0 s0 hr
    refine ⟨hf, fun hty => ?_, fun hty => ?_⟩ <;> rw [hk] at hty <;> cases hty
  · obtain ⟨hf, hk⟩ := maybeGetFreeDelazifyTask_frame st t0 s0 hr
    refine ⟨hf, fun hty => ?_, fun hty => ?_⟩ <;> rw [hk] at hty <;> cases hty
  · obtain ⟨hf, hk⟩ := maybeGetDelazifyTask_frame st t0 s0 hr
    refine ⟨hf, fun hty => ?_, fun hty => ?_⟩ <;> rw [hk] at hty <;> cases hty
  · obtain ⟨hf, hk⟩ := maybeGetCompressionTask_frame st t0 s0 hr
    refine ⟨hf, fun hty => ?_,
      fun _ => maybeGetCompressionTask_isSome st (by rw [hr]; rfl)⟩
    rw [hk] at hty; cases hty
  · obtain ⟨hf, hk⟩ := maybeGetLowPrioIonCompileTask_frame st t0 s0 hr
    refine ⟨hf, fun hty => ?_, fun hty => ?_⟩ <;> rw [hk] at hty <;> cases hty
  · obtain ⟨hf, hk⟩ := maybeGetIonFreeTask_frame st t0 s0 hr
    refine ⟨hf, fun hty => ?_, fun hty => ?_⟩ <;> rw [hk] at hty <;> cases hty
  · obtain ⟨hf, hk⟩ := maybeGetWasmCompile_frame st .tier2 t0 s0 hr
    refine ⟨hf, fun hty => ?_, fun hty => ?_⟩ <;> rcases hk with hk | hk <;>
      rw [hk] at hty <;> cases hty
  · obtain ⟨hf, hk⟩ := maybeGetWasmTier2GeneratorTask_frame st t0 s0 hr
    refine ⟨hf,
      fun _ => maybeGetWasmTier2GeneratorTask_isSome st (by rw [hr]; rfl),
      fun hty => ?_⟩
    rw [hk] at hty; cases hty

/-- When the tier-2 generator admission predicate passes, no generator
task is running (the cap is the constant 1 and the predicate is checked
with the master flag, so the full-capacity shortcut cannot fire). -/
theorem canStartGen_running_zero (st : GState)
    (h : canStartWasmTier2GeneratorTask st = true) :
    st.runningTaskCount ThreadType.wasmGenTier2 = 0 := by
  unfold canStartWasmTier2GeneratorTask at h
  rw [Bool.and_eq_true] at h
  have h1 : maxWasmTier2GeneratorThreads = 1 := rfl
  have h2 := checkTaskThreadLimit_running_lt st ThreadType.wasmGenTier2
    maxWasmTier2GeneratorThreads true (Or.inl rfl) h.2
  omega

/-- When the compression admission predicate passes on a coordinator with
at least two threads, no compression task is running (cap 1 is below the
thread count, so the shortcut cannot fire). -/
theorem canStartCompression_running_zero (st : GState)
    (hth : 2 ≤ st.threadCount) (h : canStartCompressionTask st = true) :
    st.runningTaskCount ThreadType.compress = 0 := by
  unfold canStartCompressionTask at h
  rw [Bool.and_eq_true] at h
  have h1 : maxCompressionThreads = 1 := rfl
  have h2 := checkTaskThreadLimit_running_lt st ThreadType.compress
    maxCompressionThreads false (Or.inr (by omega)) h.2
  omega

/-- The inductive invariant: the running counters agree with the registry,
the thread count stays at least two, and the two single-slot kinds have at
most one registry entry each. -/
def GlobalInv (st : GState) : Prop :=
  (st.totalCountRunningTasks = st.helperTasks.length ∧
    ∀ ty, st.runningTaskCount ty = countType ty st.helperTasks) ∧
  2 ≤ st.threadCount ∧
  countType ThreadType.wasmGenTier2 st.helperTasks ≤ 1 ∧
  countType ThreadType.compress st.helperTasks ≤ 1

theorem step_globalInv (st st' : GState) (hs : Step st st')
    (h : GlobalInv st) : GlobalInv st' := by
  obtain ⟨⟨htot, hcnt⟩, hth, hg, hc⟩ := h
  cases hs with
  | startTask t stSel hfind =>
    obtain ⟨⟨hfH, hfC, hfT, hfTh⟩, hgen, hcomp⟩ :=
      findHighestPriorityTask_spec _ t stSel hfind
    refine ⟨⟨?_, ?_⟩, ?_, ?_, ?_⟩
    · show stSel.totalCountRunningTasks + 1 =
        (stSel.helperTasks ++ [t]).length
      rw [hfT, hfH, htot, List.length_append]
      rfl
    · intro ty
      show (if ty = t.threadType then stSel.runningTaskCount ty + 1
          else stSel.runningTaskCount ty) =
        countType ty (stSel.helperTasks ++ [t])
      rw [hfH, countType_append_single]
      have hC : stSel.runningTaskCount ty = st.runningTaskCount ty := by
        rw [hfC]
      by_cases hty : ty = t.threadType
      · rw [if_pos hty, hC, hcnt ty, if_pos hty.symm]
      · rw [if_neg hty, hC, hcnt ty, if_neg (fun hh => hty hh.symm)]
        omega
    · show 2 ≤ stSel.threadCount
      rw [hfTh]; exact hth
    · show countType ThreadType.wasmGenTier2 (stSel.helperTasks ++ [t]) ≤ 1
      rw [hfH, countType_append_single]
      by_cases hty : t.threadType = ThreadType.wasmGenTier2
      · rw [if_pos hty]
        have h0 := canStartGen_running_zero st (hgen hty)
        rw [hcnt ThreadType.wasmGenTier2] at h0
        omega
      · rw [if_neg hty]
        omega
    · show countType ThreadType.compress (stSel.helperTasks ++ [t]) ≤ 1
      rw [hfH, countType_append_single]
      by_cases hty : t.threadType = ThreadType.compress
      · rw [if_pos hty]
        have h0 := canStartCompression_running_zero st hth (hcomp hty)
        rw [hcnt ThreadType.compress] at h0
        omega
      · rw [if_neg hty]
        omega
  | finishTask t hmem =>
    refine ⟨⟨?_, ?_⟩, ?_, ?_, ?_⟩
    · simp only [finishRunning, dispatch_totalCountRunningTasks,
        dispatch_helperTasks]
      have hlen := eraseTaskEntry_length t st.helperTasks hmem
      omega
    · intro ty
      simp only [finishRunning, dispatch_runningTaskCount,
        dispatch_helperTasks]
      have hct := countType_eraseTaskEntry ty t st.helperTasks hmem
      by_cases hty : ty = t.threadType
      · rw [if_pos hty, hcnt ty]
        rw [if_pos hty.symm] at hct
        omega
      · rw [if_neg hty, hcnt ty]
        rw [if_neg (fun hh => hty hh.symm)] at hct
        omega
    · simp only [finishRunning, dispatch_threadCount]
      exact hth
    · simp only [finishRunning, dispatch_helperTasks]
      have hct := countType_eraseTaskEntry ThreadType.wasmGenTier2 t
        st.helperTasks hmem
      omega
    · simp only [finishRunning, dispatch_helperTasks]
      have hct := countType_eraseTaskEntry ThreadType.compress t
        st.helperTasks hmem
      omega
  | mutateLists stp hreg hcnt2 htot2 hth2 =>
    refine ⟨⟨?_, ?_⟩, ?_, ?_, ?_⟩
    · rw [htot2, hreg]; exact htot
    · intro ty; rw [hcnt2, hreg]; exact hcnt ty
    · rw [hth2]; exact hth
    · rw [hreg]; exact hg
    · rw [hreg]; exact hc

/-- Every state reachable from an initialised coordinator satisfies the
inductive invariant. -/
theorem reachable_globalInv (st0 st : GState) (h0 : InitState st0)
    (h : Relation.ReflTransGen Step st0 st) : GlobalInv st := by
  induction h with
  | refl =>
    obtain ⟨hH, hT, hC, hth⟩ := h0
    refine ⟨⟨?_, ?_⟩, hth, ?_, ?_⟩
    · rw [hT, hH]; rfl
    · intro ty; rw [hC ty, hH]; rfl
    · rw [hH]; exact Nat.zero_le 1
    · rw [hH]; exact Nat.zero_le 1
  | tail _ hstep ih => exact step_globalInv _ _ hstep ih

/-- C10.  Running-registry bookkeeping consistency: at every lock-held
state reachable from an initialised coordinator (task execution being
bracketed by the atomic register/retire halves of `runTaskLocked`),
`totalCountRunningTasks` equals the number of running-registry entries and
each `runningTaskCount[t]` equals the number of registry entries of thread
type t. -/
theorem runningRegistryConsistency (st0 st : GState) (h0 : InitState st0)
    (h : Reachable st0 st) :
    st.totalCountRunningTasks = st.helperTasks.length ∧
    ∀ ty, st.runningTaskCount ty = countType ty st.helperTasks :=
  (reachable_globalInv st0 st h0 h).1

/-- Witness for C10 at the freshly initialised base state. -/
theorem runningRegistryConsistency_witness :
    baseState.totalCountRunningTasks = baseState.helperTasks.length ∧
    ∀ ty, baseState.runningTaskCount ty = countType ty baseState.helperTasks :=
  runningRegistryConsistency baseState baseState
    ⟨rfl, rfl, fun _ => rfl, by decide⟩ Relation.ReflTransGen.refl

/-- C7.  Single-slot kinds: in every reachable state at most one wasm
tier-2 generator task and at most one source-compression task sit in the
running registry; both per-kind caps are the constant 1. -/
theorem singleSlotKinds (st0 st : GState) (h0 : InitState st0)
    (h : Reachable st0 st) :
    countType ThreadType.wasmGenTier2 st.helperTasks ≤ 1 ∧
    countType ThreadType.compress st.helperTasks ≤ 1 ∧
    maxWasmTier2GeneratorThreads = 1 ∧ maxCompressionThreads = 1 :=
  ⟨(reachable_globalInv st0 st h0 h).2.2.1,
   (reachable_globalInv st0 st h0 h).2.2.2, rfl, rfl⟩

/-- Witness for C7 at the freshly initialised base state. -/
theorem singleSlotKinds_witness :
    countType ThreadType.wasmGenTier2 baseState.helperTasks ≤ 1 ∧
    countType ThreadType.compress baseState.helperTasks ≤ 1 ∧
    maxWasmTier2GeneratorThreads = 1 ∧ maxCompressionThreads = 1 :=
  singleSlotKinds baseState baseState ⟨rfl, rfl, fun _ => rfl, by decide⟩
    Relation.ReflTransGen.refl

end HelperThreads
